import Mathlib

/-!
Verification development for the godex multi-agent orchestration runtime.

Shallow embedding of:
- `agent/communication/protocol.py` (`MessageType`, `AgentMessage`)
- `agent/communication/monitor.py` (`MessageStatus`, `MessageEvent`, `MessageTrace`, `MessageMonitor`)
- `agent/communication/broker.py` (`MessageBroker`)
- `agent/orchestrator/llm_orchestrator.py` (`LLMOrchestratingManager.chat`,
  `_get_llm_response_with_tools`, `_message_planner`, `_message_rag`)

Modelling conventions:
- Wall-clock instants (`datetime.now()`) are abstract `Int` parameters named `now`.
- Python's `uuid4()` defaults are abstract `String` parameters for fresh ids.
- Python dicts used as keyed tables are modelled as `StrMap α := String → Option α`;
  payload dicts (whose literal structure matters) are association lists.
- Worker-thread concurrency is modelled by explicit interleaving: a worker
  iteration is a pure state transformer `BrokerState.workerStep`, and the caller
  supplies the list of worker iterations that occur while `send_request` waits.
-/

/-- Python values appearing in message payloads (`Dict[str, Any]`). -/
inductive PyVal where
  | str (s : String)
  | int (n : Int)
  | bool (b : Bool)
  | list (xs : List PyVal)
  | dict (xs : List (String × PyVal))

/-- A payload dict, in insertion order, as built by the source's dict literals. -/
abbrev Payload := List (String × PyVal)

/-- Lookup in a payload dict (Python `d[k]` / `d.get(k)`). -/
def pget (p : Payload) (k : String) : Option PyVal :=
  match p with
  | [] => none
  | (k', v) :: rest => if k' = k then some v else pget rest k

/-- Python `v == "s"` for a dict value `v`: true only when `v` is exactly that string. -/
def PyVal.isStr (v : PyVal) (s : String) : Bool :=
  match v with
  | .str t => t = s
  | _ => false

/-- A string-keyed table (Python `dict` used as a map; literal order never observed). -/
def StrMap (α : Type) : Type := String → Option α

/-- The empty table. -/
def StrMap.empty {α : Type} : StrMap α := fun _ => none

/-- `d[k] = v` on a Python dict. -/
def StrMap.insert {α : Type} (d : StrMap α) (k : String) (v : α) : StrMap α :=
  fun k' => if k' = k then some v else d k'

/-- `del d[k]` / `d.pop(k, None)` on a Python dict. -/
def StrMap.erase {α : Type} (d : StrMap α) (k : String) : StrMap α :=
  fun k' => if k' = k then none else d k'

/-- `MessageType` from `protocol.py`. -/
inductive MessageType where
  | request
  | response
  | notif
  | status_update
  | error
  | broadcast
deriving DecidableEq

/-- The `.value` string of each `MessageType` member (`protocol.py` lines 12-19). -/
def MessageType.value : MessageType → String
  | .request => "request"
  | .response => "response"
  | .notif => "notification"
  | .status_update => "status"
  | .error => "error"
  | .broadcast => "broadcast"

/-- `AgentMessage` from `protocol.py`.  `message_id` and `timestamp` are the
pydantic defaults (`uuid4()` / `datetime.now()`), passed explicitly at each
construction site. -/
structure AgentMessage where
  message_id : String
  correlation_id : Option String
  sender : String
  recipient : String
  message_type : MessageType
  payload : Payload
  timestamp : Int
  priority : Int
  ttl_seconds : Option Int
  requires_response : Bool
  response_timeout : Option Int

/-- Construction of an `AgentMessage` giving only the fields the source's call
sites pass (`sender`, `recipient`, `message_type`, `payload`), every other field
taking its pydantic default from `protocol.py` lines 28-46: `correlation_id=None`,
`priority=1`, `ttl_seconds=300`, `requires_response=False`, `response_timeout=30`. -/
def AgentMessage.mkDefault (mid : String) (now : Int) (sender recipient : String)
    (mtype : MessageType) (payload : Payload) : AgentMessage :=
  { message_id := mid
    correlation_id := none
    sender := sender
    recipient := recipient
    message_type := mtype
    payload := payload
    timestamp := now
    priority := 1
    ttl_seconds := some 300
    requires_response := false
    response_timeout := some 30 }

/-- `AgentMessage.create_response` (`protocol.py` lines 65-83): builds a new
message with swapped `sender`/`recipient`, `correlation_id` set to the original
id, the given payload, and `requires_response=False`; the remaining fields take
constructor defaults (fresh id `new_id`, timestamp `now`). -/
def AgentMessage.create_response (m : AgentMessage) (new_id : String) (now : Int)
    (payload : Payload) (message_type : MessageType) : AgentMessage :=
  { message_id := new_id
    correlation_id := some m.message_id
    sender := m.recipient
    recipient := m.sender
    message_type := message_type
    payload := payload
    timestamp := now
    priority := 1
    ttl_seconds := some 300
    requires_response := false
    response_timeout := some 30 }

/-- `AgentMessage.is_expired` (`protocol.py` lines 85-91), with `now` the value
of `datetime.now()` at the call; the age is `now - timestamp` in seconds. -/
def AgentMessage.is_expired (m : AgentMessage) (now : Int) : Bool :=
  match m.ttl_seconds with
  | none => false
  | some ttl => now - m.timestamp > ttl

/-- `MessageStatus` from `monitor.py`. -/
inductive MessageStatus where
  | created
  | sent
  | received
  | processing
  | completed
  | failed
  | timeout
  | no_handler
deriving DecidableEq

/-- `MessageEvent` from `monitor.py`. -/
structure MessageEvent where
  timestamp : Int
  status : MessageStatus
  details : String
  error : Option String
  metadata : Payload

/-- `MessageTrace` from `monitor.py`. -/
structure MessageTrace where
  message_id : String
  sender : String
  recipient : String
  message_type : String
  created_at : Int
  events : List MessageEvent

/-- `MessageTrace.add_event` (`monitor.py` lines 47-56): appends one event. -/
def MessageTrace.add_event (t : MessageTrace) (now : Int) (status : MessageStatus)
    (details : String) (error : Option String) (metadata : Payload) : MessageTrace :=
  { t with events := t.events ++ [⟨now, status, details, error, metadata⟩] }

/-- `MessageTrace.get_status` (`monitor.py` lines 64-68). -/
def MessageTrace.get_status (t : MessageTrace) : MessageStatus :=
  match t.events.getLast? with
  | none => .created
  | some e => e.status

/-- `MessageMonitor` state (`monitor.py`): the `traces` table.  The log
directory and console printing are I/O only and carry no state the claims
mention. -/
structure MessageMonitor where
  traces : StrMap MessageTrace

/-- `MessageMonitor.start_trace` (`monitor.py` lines 102-116): registers a fresh
trace for the id, overwriting any previous one. -/
def MessageMonitor.start_trace (m : MessageMonitor) (now : Int)
    (message_id sender recipient message_type : String) : MessageMonitor :=
  { traces := m.traces.insert message_id
      ⟨message_id, sender, recipient, message_type, now, []⟩ }

/-- `MessageMonitor.record_event` (`monitor.py` lines 118-149): if no trace
exists for the id, synthesizes the minimal placeholder trace (sender, recipient
and type all `"unknown"`), then appends the event. -/
def MessageMonitor.record_event (m : MessageMonitor) (now : Int) (message_id : String)
    (status : MessageStatus) (details : String) (error : Option String)
    (metadata : Payload) : MessageMonitor :=
  let tr :=
    match m.traces message_id with
    | some t => t
    | none => ⟨message_id, "unknown", "unknown", "unknown", now, []⟩
  { traces := m.traces.insert message_id (tr.add_event now status details error metadata) }

/-- `MessageMonitor.get_trace` (`monitor.py` lines 151-153): `dict.get`, total. -/
def MessageMonitor.get_trace (m : MessageMonitor) (message_id : String) : Option MessageTrace :=
  m.traces message_id

/-- The handler signature (`broker.py` line 45): a function from a message to a
result payload; `Except` models a handler that raises. -/
abbrev Handler := AgentMessage → Except String Payload

/-- `_max_history_size` (`broker.py` line 56). -/
def max_history_size : Nat := 1000

/-- `MessageBroker` state (`broker.py` `__init__`, lines 40-70).  The global
monitor reached through `get_message_monitor()` is carried as a field;
`_worker_threads` keeps only the set of names (the `Thread` objects carry no
state the code reads). -/
structure BrokerState where
  agent_handlers : StrMap Handler
  message_queues : StrMap (List AgentMessage)
  pending_responses : StrMap AgentMessage
  response_events : StrMap Bool
  message_history : List AgentMessage
  worker_threads : StrMap Unit
  shutdown_event : Bool
  messages_sent : Nat
  messages_delivered : Nat
  messages_failed : Nat
  responses_matched : Nat
  monitor : MessageMonitor

/-- The freshly initialized broker (`broker.py` `__init__`). -/
def BrokerState.init : BrokerState :=
  { agent_handlers := StrMap.empty
    message_queues := StrMap.empty
    pending_responses := StrMap.empty
    response_events := StrMap.empty
    message_history := []
    worker_threads := StrMap.empty
    shutdown_event := false
    messages_sent := 0
    messages_delivered := 0
    messages_failed := 0
    responses_matched := 0
    monitor := ⟨StrMap.empty⟩ }

/-- `MessageBroker.register_agent` (`broker.py` lines 72-91): installs the
handler, and spawns a worker thread only if none exists for the name.  The
returned `Bool` reports whether a new worker thread was spawned. -/
def BrokerState.register_agent (st : BrokerState) (agent_name : String)
    (handler : Handler) : BrokerState × Bool :=
  let st := { st with agent_handlers := st.agent_handlers.insert agent_name handler }
  match st.worker_threads agent_name with
  | some _ => (st, false)
  | none => ({ st with worker_threads := st.worker_threads.insert agent_name () }, true)

/-- `MessageBroker.route_message` (`broker.py` lines 168-206): starts a trace,
appends to the bounded history (evicting the oldest beyond
`max_history_size`), then either enqueues to the recipient's mailbox and
records `SENT`, or records `NO_HANDLER` with no enqueue. -/
def BrokerState.route_message (st : BrokerState) (now : Int) (message : AgentMessage) :
    BrokerState :=
  let st := { st with monitor := (st.monitor.start_trace now message.message_id
                message.sender message.recipient message.message_type.value) }
  let hist := st.message_history ++ [message]
  let hist := if hist.length > max_history_size then hist.drop 1 else hist
  let st := { st with message_history := hist }
  match st.agent_handlers message.recipient with
  | some _ =>
      { st with
        message_queues := (st.message_queues.insert message.recipient
          ((st.message_queues message.recipient).getD [] ++ [message]))
        messages_sent := st.messages_sent + 1
        monitor := (st.monitor.record_event now message.message_id .sent
          ("Message queued for " ++ message.recipient) none []) }
  | none =>
      { st with
        messages_failed := st.messages_failed + 1
        monitor := (st.monitor.record_event now message.message_id .no_handler
          ("No handler registered for " ++ message.recipient)
          (some "Agent not registered") []) }

/-- One iteration of `MessageBroker._agent_worker` (`broker.py` lines 102-166):
if not shut down and the mailbox is non-empty, dequeue the head message, record
`RECEIVED`, and if a handler is registered, record `PROCESSING` and run it; on
success for a `REQUEST`, build the response via `create_response`, store it in
`pending_responses`, signal the waiter's event if one is registered, and record
`COMPLETED`; on a handler exception record `FAILED` (no response is stored).
Either way `messages_delivered` is incremented.  `fresh_id` stands for the
`uuid4()` default of the response message; the `response_size` metadata value
stands in for `len(str(response_payload))`, which no claim observes. -/
def BrokerState.workerStep (st : BrokerState) (agent_name : String) (now : Int)
    (fresh_id : String) : BrokerState :=
  if st.shutdown_event then st else
  match (st.message_queues agent_name).getD [] with
  | [] => st
  | message :: rest =>
    let st := { st with message_queues := st.message_queues.insert agent_name rest }
    let st := { st with monitor := (st.monitor.record_event now message.message_id .received
                  ("Message received by " ++ agent_name) none []) }
    let st :=
      match st.agent_handlers agent_name with
      | none => st
      | some handler =>
        let st := { st with monitor := (st.monitor.record_event now message.message_id
                      .processing (agent_name ++ " processing message") none []) }
        match handler message with
        | .error e =>
            { st with monitor := (st.monitor.record_event now message.message_id .failed
                (agent_name ++ " failed to process message") (some e) []) }
        | .ok response_payload =>
            match message.message_type with
            | .request =>
              let response_message :=
                message.create_response fresh_id now response_payload .response
              let st := { st with pending_responses :=
                            (st.pending_responses.insert message.message_id response_message) }
              let st :=
                match st.response_events message.message_id with
                | some _ => { st with response_events :=
                                (st.response_events.insert message.message_id true) }
                | none => st
              { st with monitor := (st.monitor.record_event now message.message_id .completed
                  (agent_name ++ " completed processing") none
                  [("response_size", .int response_payload.length)]) }
            | _ => st
    { st with messages_delivered := st.messages_delivered + 1 }

/-- One scheduled worker iteration: which agent's worker runs, at what time,
and the fresh uuid it would give a response message. -/
structure WorkerAct where
  agent : String
  time : Int
  fresh_id : String

/-- Run a list of worker iterations in order. -/
def BrokerState.runWorkers (st : BrokerState) (steps : List WorkerAct) : BrokerState :=
  steps.foldl (fun s a => s.workerStep a.agent a.time a.fresh_id) st

/-- The time at which the waiter's completion event for `mid` first becomes set
during the given worker iterations, if ever (the semantics of
`threading.Event.wait`: it returns as soon as some worker's `set()` lands). -/
def firstSignalTime (st : BrokerState) (mid : String) : List WorkerAct → Option Int
  | [] => none
  | a :: rest =>
    let st' := st.workerStep a.agent a.time a.fresh_id
    match st'.response_events mid with
    | some true => some a.time
    | _ => firstSignalTime st' mid rest

/-- The timeout branch of `send_request` (`broker.py` lines 232-243): remove
the stale event registration, record `TIMEOUT`, return `None`; the elapsed wait
is the full `timeout`. -/
def BrokerState.sendTimeout (st : BrokerState) (now : Int) (message : AgentMessage)
    (timeout : Int) : BrokerState × Option AgentMessage × Int :=
  ({ st with
      response_events := st.response_events.erase message.message_id
      monitor := (st.monitor.record_event now message.message_id .timeout
        ("Request timed out after " ++ toString timeout ++ "s")
        (some "No response received") []) },
   none, timeout)

/-- `MessageBroker.send_request` (`broker.py` lines 208-243): register a fresh
unset completion event for the id, route the message, then block on the event
for up to `timeout`.  `steps` are the worker iterations that occur while the
caller waits; the wait succeeds iff one of them sets the event no later than
`timeout`.  On success: pop the pending response, delete the event, bump
`responses_matched`.  On timeout: delete the event, record `TIMEOUT`, return
`none`.  The third component is the time the caller spent blocked. -/
def BrokerState.send_request (st : BrokerState) (now : Int) (message : AgentMessage)
    (timeout : Int) (steps : List WorkerAct) : BrokerState × Option AgentMessage × Int :=
  let st := { st with response_events := st.response_events.insert message.message_id false }
  let st := st.route_message now message
  let stW := st.runWorkers steps
  match firstSignalTime st message.message_id steps with
  | some t =>
    if t ≤ timeout then
      let response := stW.pending_responses message.message_id
      ({ stW with
          pending_responses := stW.pending_responses.erase message.message_id
          response_events := stW.response_events.erase message.message_id
          responses_matched := stW.responses_matched + 1 },
       response, t)
    else stW.sendTimeout now message timeout
  | none => stW.sendTimeout now message timeout

/-- `MessageBroker.shutdown` (`broker.py` lines 245-251): set the shutdown
event and clear the handler, mailbox and pending-response tables; nothing else
is touched. -/
def BrokerState.shutdown (st : BrokerState) : BrokerState :=
  { st with
    shutdown_event := true
    agent_handlers := StrMap.empty
    message_queues := StrMap.empty
    pending_responses := StrMap.empty }

/-- A tool call returned by the LLM (`llm_orchestrator.py` lines 439-441): id,
function name, and the JSON-parsed arguments. -/
structure ToolCall where
  id : String
  name : String
  arguments : Payload

/-- The value returned by `self.llm.chat_completion`: either a bare string or
an object with optional `content` and a `tool_calls` list (`hasattr` checks at
`llm_orchestrator.py` lines 432, 482-487). -/
inductive LLMResponse where
  | str (s : String)
  | obj (content : Option String) (tool_calls : List ToolCall)

/-- Extraction of the answer text from an LLM response
(`llm_orchestrator.py` lines 482-487 and 493-498): a bare string is returned
as is; an object yields `content or ""`. -/
def LLMResponse.asText : LLMResponse → String
  | .str s => s
  | .obj c _ => c.getD ""

/-- One entry of the message list handed to the LLM.  The source stores dicts
with a `role` key; the tool-result content, `json.dumps(result)` in the source,
is carried structurally since serialization is injective on payloads. -/
inductive ChatMsg where
  | system (content : String)
  | user (content : String)
  | assistant (content : String)
  | assistantCalls (content : String) (tool_calls : List ToolCall)
  | tool (tool_call_id : String) (output : Payload)

/-- The external oracle: `chat_completion(messages, tools?, ...)`.  The `Bool`
says whether the tool catalog was offered; `Except` models the call raising. -/
abbrev Oracle := List ChatMsg → Bool → Except String LLMResponse

/-- `_execute_orchestration_tool` (`llm_orchestrator.py` lines 500-516) as seen
by the dispatch loop: total, since the method catches every exception and folds
it into an error payload. -/
abbrev ToolExec := String → Payload → Payload

/-- `max_rounds` (`llm_orchestrator.py` line 418). -/
def max_rounds : Nat := 5

/-- The `while rounds < max_rounds` loop of `_get_llm_response_with_tools`
(`llm_orchestrator.py` lines 421-498), with `roundsLeft = max_rounds - rounds`
as fuel.  With fuel left: call the oracle with tools; if it answers with tool
calls, execute each, append one assistant turn carrying the calls and one tool
turn per call (in request order), and continue; otherwise return the answer.
With no fuel left: make the final, tool-free oracle call and return its text.
The result is instrumented with the list of tools-enabled flags of the oracle
calls made, in order, which the source exhibits only as external calls. -/
def toolLoop (oracle : Oracle) (execTool : ToolExec) (tool_messages : List ChatMsg)
    (made_tool_calls : Bool) : Nat → Except String (String × Bool × List Bool)
  | 0 =>
    match oracle tool_messages false with
    | .error e => .error e
    | .ok final => .ok (final.asText, made_tool_calls, [false])
  | n + 1 =>
    match oracle tool_messages true with
    | .error e => .error e
    | .ok response =>
      match response with
      | .obj content (tc :: tcs) =>
        let calls := tc :: tcs
        let results := calls.map (fun c => (c.id, execTool c.name c.arguments))
        let msgs := tool_messages
          ++ [ChatMsg.assistantCalls (content.getD "") calls]
          ++ results.map (fun r => ChatMsg.tool r.1 r.2)
        match toolLoop oracle execTool msgs true n with
        | .error e => .error e
        | .ok (a, m, log) => .ok (a, m, true :: log)
      | other => .ok (other.asText, made_tool_calls, [true])

/-- `_get_llm_response_with_tools` (`llm_orchestrator.py` lines 406-498).  The
`copy.deepcopy(messages)` at line 412 is value passing here: the loop's
transcript is separate from the caller's list from the start. -/
def getLlmResponseWithTools (oracle : Oracle) (execTool : ToolExec)
    (messages : List ChatMsg) : Except String (String × Bool × List Bool) :=
  toolLoop oracle execTool messages false max_rounds

/-- One entry of `self.conversation_history` (`llm_orchestrator.py` lines
331-336, 346-351): role is `"human"` or `"manager"`; manager entries carry
`had_tool_calls`. -/
structure HistEntry where
  role : String
  content : String
  timestamp : Int
  had_tool_calls : Option Bool

/-- One step of the history-to-messages fold of `_build_conversation_messages`
(`llm_orchestrator.py` lines 378-393), threading `last_role`. -/
def buildStep : (List ChatMsg × String) → HistEntry → (List ChatMsg × String)
  | (messages, last_role), entry =>
    if entry.role = "human" then (messages ++ [.user entry.content], "user")
    else if entry.role = "manager" then
      if last_role = "user" then (messages ++ [.assistant entry.content], "assistant")
      else (messages, last_role)
    else (messages, last_role)

/-- Python's `range(len(messages)-1, 0, -1)` search at `llm_orchestrator.py`
lines 399-402: the largest index `i ≥ 1` holding a user message, if any. -/
def lastUserFrom (messages : List ChatMsg) : Option Nat :=
  ((List.range messages.length).filter (fun i =>
    1 ≤ i && match messages.getD i (.system "") with
             | .user _ => true
             | _ => false)).getLast?

/-- `_build_conversation_messages` (`llm_orchestrator.py` lines 370-404):
system prompt, then the last 10 history entries folded into alternating
user/assistant turns, then truncation so the list does not end on an
assistant turn (kept as is when no user turn exists to cut at). -/
def buildConversationMessages (system_prompt : String) (history : List HistEntry) :
    List ChatMsg :=
  let history_entries := history.drop (history.length - 10)
  let messages := (history_entries.foldl buildStep ([.system system_prompt], "system")).1
  if 1 < messages.length then
    match messages.getLast? with
    | some (.assistant _) =>
      match lastUserFrom messages with
      | some i => messages.take (i + 1)
      | none => messages
    | _ => messages
  else messages

/-- The orchestrating manager state read and written by `chat`
(`llm_orchestrator.py`): the canonical conversation history, the request
counter, and the fixed system prompt. -/
structure ManagerState where
  conversation_history : List HistEntry
  total_requests : Nat
  system_prompt : String

/-- `LLMOrchestratingManager.chat` (`llm_orchestrator.py` lines 325-368):
append the human turn, build the LLM message list, run the tool loop on it,
and append exactly one manager turn — the final answer on success, the
`"I encountered an error..."` text when anything raised. -/
def ManagerState.chat (st : ManagerState) (now : Int) (human_message : String)
    (oracle : Oracle) (execTool : ToolExec) : ManagerState × String :=
  let st := { st with total_requests := st.total_requests + 1 }
  let st := { st with conversation_history :=
                (st.conversation_history ++ [HistEntry.mk "human" human_message now none]) }
  let messages := buildConversationMessages st.system_prompt st.conversation_history
  match getLlmResponseWithTools oracle execTool messages with
  | .ok (response, had_tool_calls, _) =>
    ({ st with conversation_history :=
         (st.conversation_history ++ [HistEntry.mk "manager" response now (some had_tool_calls)]) },
     response)
  | .error e =>
    let error_msg := "I encountered an error processing your request: " ++ e
    ({ st with conversation_history :=
         (st.conversation_history ++ [HistEntry.mk "manager" error_msg now (some false)]) },
     error_msg)

/-- The broker as seen by the tool methods: `send_request(message, timeout)`
returning the response message or `None` (`broker.py` line 208). -/
abbrev BrokerSend := AgentMessage → Int → Option AgentMessage

/-- `_message_planner` (`llm_orchestrator.py` lines 518-544): build a Request
to `"planner"` from `args` (a missing `"action"`/`"objective"` key raises a
`KeyError`, caught into an error payload), send with timeout 180; on a
response return its payload, updating `active_plan` when it carries a
successful plan; on `None` return the synthesized
`status=error / No response from Planner` payload.  Returns the result
payload and the new `active_plan`. -/
def messagePlanner (send : BrokerSend) (active_plan : Option PyVal) (mid : String)
    (now : Int) (args : Payload) : Payload × Option PyVal :=
  match pget args "action" with
  | none => ([("status", .str "error"), ("message", .str "'action'")], active_plan)
  | some action =>
    match pget args "objective" with
    | none => ([("status", .str "error"), ("message", .str "'objective'")], active_plan)
    | some objective =>
      let context := (pget args "context").getD (.dict [])
      let message : AgentMessage :=
        AgentMessage.mkDefault mid now "manager" "planner" .request
          [("action", action), ("objective", objective), ("context", context)]
      match send message 180 with
      | some response =>
        let result := response.payload
        let statusOk := match pget result "status" with
          | some v => v.isStr "success"
          | none => false
        let active_plan := match pget result "plan" with
          | some plan => if statusOk then some plan else active_plan
          | none => active_plan
        (result, active_plan)
      | none =>
        ([("status", .str "error"), ("message", .str "No response from Planner")],
         active_plan)

/-- `_message_rag` (`llm_orchestrator.py` lines 546-590): map the high-level
action onto the RAG payload (missing keys raise a `KeyError`, caught into an
error payload), send a Request to `"rag_specialist"` with timeout 120; on a
response return its payload, updating `current_context` when it carries a
successful context; on `None` return the synthesized
`status=error / No response from RAG` payload. -/
def messageRag (send : BrokerSend) (current_context : Option PyVal) (mid : String)
    (now : Int) (args : Payload) : Payload × Option PyVal :=
  match pget args "action" with
  | none => ([("status", .str "error"), ("message", .str "'action'")], current_context)
  | some action =>
    let payloadE : Except String Payload :=
      if action.isStr "search" then
        match pget args "query" with
        | none => .error "'query'"
        | some q => .ok [("action", .str "hybrid_search"), ("query", q),
                         ("max_results", (pget args "max_results").getD (.int 5))]
      else if action.isStr "analyze" then
        match pget args "query" with
        | none => .error "'query'"
        | some q => .ok [("action", .str "analyze_codebase"), ("query", q),
                         ("analysis_type", (pget args "context_type").getD (.str "general"))]
      else if action.isStr "build_context" then
        match pget args "query" with
        | none => .error "'query'"
        | some q => .ok [("action", .str "build_context"), ("task_description", q),
                         ("context_type", (pget args "context_type").getD (.str "execution"))]
      else .ok args
    match payloadE with
    | .error e => ([("status", .str "error"), ("message", .str e)], current_context)
    | .ok payload =>
      let message : AgentMessage :=
        AgentMessage.mkDefault mid now "manager" "rag_specialist" .request payload
      match send message 120 with
      | some response =>
        let result := response.payload
        let statusOk := match pget result "status" with
          | some v => v.isStr "success"
          | none => false
        let current_context := match pget result "context" with
          | some c => if statusOk then some c else current_context
          | none => current_context
        (result, current_context)
      | none =>
        ([("status", .str "error"), ("message", .str "No response from RAG")],
         current_context)

/-- A broker stub that never produces a response (every request times out). -/
def noneSend : BrokerSend := fun _ _ => none

/-- An oracle that requests one further capability invocation on every
tools-enabled consultation and answers plainly when tools are withheld. -/
def alwaysCallOracle : Oracle := fun _ toolsEnabled =>
  if toolsEnabled then .ok (.obj none [ToolCall.mk "c1" "message_planner" []])
  else .ok (.str "done")

/-- A tool executor stub returning an empty payload. -/
def nullExec : ToolExec := fun _ _ => []

/-- A demo capability handler that succeeds immediately. -/
def demoHandler : Handler := fun _ => .ok [("status", .str "success")]

/-- A broker with one registered capability `"echo"`. -/
def demoBroker : BrokerState := (BrokerState.init.register_agent "echo" demoHandler).1

/-- A concrete request to `"echo"`. -/
def demoMsg : AgentMessage :=
  AgentMessage.mkDefault "m1" 0 "manager" "echo" .request [("text", .str "hi")]

/-- The broker after `send_request demoMsg` times out with the worker idle. -/
def demoAfterTimeout : BrokerState := (demoBroker.send_request 0 demoMsg 1 []).1

/-- The broker after the worker then services the request, after the caller
already timed out. -/
def demoLate : BrokerState := demoAfterTimeout.workerStep "echo" 2 "r1"

/-- A concrete request addressed to the unregistered name `"ghost"`. -/
def ghostMsg : AgentMessage :=
  AgentMessage.mkDefault "g1" 0 "manager" "ghost" .request []

theorem StrMap.get_insert_self {α : Type} (d : StrMap α) (k : String) (v : α) :
    d.insert k v k = some v := by
  simp [StrMap.insert]

theorem StrMap.get_insert_ne {α : Type} (d : StrMap α) (k k' : String) (v : α)
    (h : k' ≠ k) : d.insert k v k' = d k' := by
  simp [StrMap.insert, h]

theorem StrMap.get_erase_self {α : Type} (d : StrMap α) (k : String) :
    d.erase k k = none := by
  simp [StrMap.erase]

/-- C6: `create_response(m, p)` is a pure function of the original message: the
result carries `correlation_id = m.message_id`, swapped `sender`/`recipient`,
the given payload, and `requires_response = false`.  In this functional
embedding `m` is untouched by construction, matching the source, which only
reads `self`. -/
theorem create_response_spec (m : AgentMessage) (new_id : String) (now : Int)
    (p : Payload) :
    (m.create_response new_id now p .response).correlation_id = some m.message_id
    ∧ (m.create_response new_id now p .response).sender = m.recipient
    ∧ (m.create_response new_id now p .response).recipient = m.sender
    ∧ (m.create_response new_id now p .response).payload = p
    ∧ (m.create_response new_id now p .response).requires_response = false :=
  ⟨rfl, rfl, rfl, rfl, rfl⟩

/-- C10: a message constructed without an explicit `ttl_seconds` gets the
default TTL of 300 seconds; `is_expired` then turns true exactly when the age
exceeds 300; and `is_expired` is false at every age if and only if
`ttl_seconds` is `None`. -/
theorem default_ttl_expiry :
    (∀ mid now s r mt p,
      (AgentMessage.mkDefault mid now s r mt p).ttl_seconds = some 300)
    ∧ (∀ mid now s r mt p t,
      (AgentMessage.mkDefault mid now s r mt p).is_expired t = decide (t - now > 300))
    ∧ ∀ m : AgentMessage, (∀ t, m.is_expired t = false) ↔ m.ttl_seconds = none := by
  refine ⟨fun _ _ _ _ _ _ => rfl, fun _ _ _ _ _ _ _ => rfl, fun m => ?_⟩
  constructor
  · intro h
    cases hm : m.ttl_seconds with
    | none => rfl
    | some ttl =>
      have h2 := h (m.timestamp + ttl + 1)
      simp [AgentMessage.is_expired, hm] at h2
      omega
  · intro hm t
    simp [AgentMessage.is_expired, hm]

/-- C10 witness: the default-constructed message has TTL 300, is expired at age
301 and not at age 300; a message with `ttl_seconds = None` never expires. -/
theorem default_ttl_expiry_witness :
    (AgentMessage.mkDefault "m" 0 "a" "b" .request []).ttl_seconds = some 300
    ∧ (AgentMessage.mkDefault "m" 0 "a" "b" .request []).is_expired 301 = true
    ∧ (AgentMessage.mkDefault "m" 0 "a" "b" .request []).is_expired 300 = false
    ∧ (∀ t, ({ AgentMessage.mkDefault "m" 0 "a" "b" .request [] with
               ttl_seconds := none } : AgentMessage).is_expired t = false) := by
  refine ⟨default_ttl_expiry.1 "m" 0 "a" "b" .request [], ?_, ?_, ?_⟩
  · rw [default_ttl_expiry.2.1 "m" 0 "a" "b" .request [] 301]; decide
  · rw [default_ttl_expiry.2.1 "m" 0 "a" "b" .request [] 300]; decide
  · exact (default_ttl_expiry.2.2 _).mpr rfl

/-- C7: `record_event` always leaves a trace for the id whose last event
carries the given status, details and error; when no trace existed, the
placeholder trace (fields `"unknown"`) is synthesized so the event is not
lost.  Both `record_event` and `get_trace` are total. -/
theorem record_event_never_drops (mon : MessageMonitor) (now : Int) (mid : String)
    (status : MessageStatus) (details : String) (error : Option String) (md : Payload) :
    ∃ tr, (mon.record_event now mid status details error md).get_trace mid = some tr
      ∧ tr.events.getLast? = some ⟨now, status, details, error, md⟩
      ∧ (mon.get_trace mid = none →
          tr = ⟨mid, "unknown", "unknown", "unknown", now,
                [⟨now, status, details, error, md⟩]⟩) := by
  cases hm : mon.traces mid with
  | none =>
    refine ⟨(⟨mid, "unknown", "unknown", "unknown", now, []⟩ : MessageTrace).add_event
              now status details error md, ?_, ?_, ?_⟩
    · simp [MessageMonitor.record_event, MessageMonitor.get_trace, hm,
        StrMap.get_insert_self]
    · simp [MessageTrace.add_event]
    · intro _; simp [MessageTrace.add_event]
  | some t =>
    refine ⟨t.add_event now status details error md, ?_, ?_, ?_⟩
    · simp [MessageMonitor.record_event, MessageMonitor.get_trace, hm,
        StrMap.get_insert_self]
    · simp [MessageTrace.add_event]
    · intro hnone
      rw [MessageMonitor.get_trace, hm] at hnone
      cases hnone

/-- C7 witness: recording an event for an id with no prior trace synthesizes
the placeholder trace holding exactly that event. -/
theorem record_event_never_drops_witness :
    ∃ tr, ((⟨StrMap.empty⟩ : MessageMonitor).record_event 0 "m7" .failed "boom"
             (some "err") []).get_trace "m7" = some tr
      ∧ tr.events.getLast? = some ⟨0, .failed, "boom", some "err", []⟩
      ∧ tr = ⟨"m7", "unknown", "unknown", "unknown", 0,
              [⟨0, .failed, "boom", some "err", []⟩]⟩ := by
  obtain ⟨tr, h1, h2, h3⟩ :=
    record_event_never_drops ⟨StrMap.empty⟩ 0 "m7" .failed "boom" (some "err") []
  exact ⟨tr, h1, h2, h3 rfl⟩

/-- C9: `shutdown` clears exactly the handler, mailbox and pending-response
tables, leaving the worker-thread table, the response-event table and every
statistics counter unchanged; re-registering a name whose worker thread
already exists installs the handler but spawns no new worker thread. -/
theorem shutdown_frame (st : BrokerState) :
    st.shutdown.worker_threads = st.worker_threads
    ∧ st.shutdown.response_events = st.response_events
    ∧ st.shutdown.messages_sent = st.messages_sent
    ∧ st.shutdown.messages_delivered = st.messages_delivered
    ∧ st.shutdown.messages_failed = st.messages_failed
    ∧ st.shutdown.responses_matched = st.responses_matched
    ∧ st.shutdown.message_history = st.message_history
    ∧ st.shutdown.agent_handlers = StrMap.empty
    ∧ st.shutdown.message_queues = StrMap.empty
    ∧ st.shutdown.pending_responses = StrMap.empty
    ∧ ∀ name handler, st.worker_threads name = some () →
        (st.shutdown.register_agent name handler).2 = false
        ∧ (st.shutdown.register_agent name handler).1.worker_threads = st.worker_threads
        ∧ (st.shutdown.register_agent name handler).1.agent_handlers name = some handler := by
  refine ⟨rfl, rfl, rfl, rfl, rfl, rfl, rfl, rfl, rfl, rfl, ?_⟩
  intro name handler h
  simp [BrokerState.register_agent, BrokerState.shutdown, h, StrMap.get_insert_self]

/-- C9 witness: register `"echo"`, shut down, register `"echo"` again — the
handler is installed but no new worker thread is spawned. -/
theorem shutdown_frame_witness :
    (demoBroker.shutdown.register_agent "echo" demoHandler).2 = false
    ∧ (demoBroker.shutdown.register_agent "echo" demoHandler).1.worker_threads
        = demoBroker.worker_threads
    ∧ ((demoBroker.shutdown.register_agent "echo" demoHandler).1.agent_handlers "echo").isSome
        = true := by
  obtain ⟨h1, h2, h3⟩ :=
    (shutdown_frame demoBroker).2.2.2.2.2.2.2.2.2.2 "echo" demoHandler rfl
  exact ⟨h1, h2, by rw [h3]; rfl⟩

/-- C8: each `route_message` call appends the routed message to the history and,
when the capacity `max_history_size = 1000` would be exceeded, evicts exactly
the oldest entry; consequently the history never exceeds 1000 entries and the
newly routed message is always its last element. -/
theorem route_message_history_bounded (st : BrokerState) (now : Int) (msg : AgentMessage) :
    (st.route_message now msg).message_history
      = (if (st.message_history ++ [msg]).length > max_history_size
         then (st.message_history ++ [msg]).drop 1 else st.message_history ++ [msg])
    ∧ (st.route_message now msg).message_history.getLast? = some msg
    ∧ (st.message_history.length ≤ max_history_size →
        (st.route_message now msg).message_history.length ≤ max_history_size) := by
  have hh : (st.route_message now msg).message_history
      = (if (st.message_history ++ [msg]).length > max_history_size
         then (st.message_history ++ [msg]).drop 1 else st.message_history ++ [msg]) := by
    unfold BrokerState.route_message
    cases h : st.agent_handlers msg.recipient <;> simp [h]
  refine ⟨hh, ?_, ?_⟩
  · rw [hh]
    by_cases hlen : (st.message_history ++ [msg]).length > max_history_size
    · have h1 : 1 ≤ st.message_history.length := by
        simp only [List.length_append, List.length_singleton, max_history_size] at hlen
        omega
      rw [if_pos hlen, List.drop_append_of_le_length h1, List.getLast?_concat]
    · rw [if_neg hlen, List.getLast?_concat]
  · intro hb
    rw [hh]
    by_cases hlen : (st.message_history ++ [msg]).length > max_history_size
    · rw [if_pos hlen]
      simp only [List.length_drop, List.length_append, List.length_singleton]
      simp only [List.length_append, List.length_singleton] at hlen
      omega
    · rw [if_neg hlen]
      simp only [List.length_append, List.length_singleton] at hlen ⊢
      omega

/-- C8 witness: routing a message through a fresh broker leaves a one-element
history ending in that message, within the capacity bound. -/
theorem route_message_history_bounded_witness :
    (BrokerState.init.route_message 0 ghostMsg).message_history = [ghostMsg]
    ∧ (BrokerState.init.route_message 0 ghostMsg).message_history.getLast? = some ghostMsg
    ∧ (BrokerState.init.route_message 0 ghostMsg).message_history.length
        ≤ max_history_size := by
  obtain ⟨h1, h2, h3⟩ := route_message_history_bounded BrokerState.init 0 ghostMsg
  refine ⟨?_, h2, h3 (by decide)⟩
  rw [h1]
  rfl

/-- C4: a `chat` call grows the canonical conversation history by exactly two
turns — the new human turn and one manager turn holding the returned answer —
for every oracle and tool executor, hence regardless of how many intermediate
tool rounds ran; the tool exchanges live only on the loop's copy of the
message list and are never written back. -/
theorem chat_history_grows_by_two (st : ManagerState) (now : Int) (hm : String)
    (oracle : Oracle) (execTool : ToolExec) :
    ∃ had : Bool,
      (st.chat now hm oracle execTool).1.conversation_history
        = st.conversation_history
          ++ [HistEntry.mk "human" hm now none,
              HistEntry.mk "manager" (st.chat now hm oracle execTool).2 now (some had)]
      ∧ (st.chat now hm oracle execTool).1.conversation_history.length
        = st.conversation_history.length + 2 := by
  simp only [ManagerState.chat]
  split
  next resp had log hr => exact ⟨had, by simp, by simp⟩
  next e hr => exact ⟨false, by simp, by simp⟩

theorem toolLoop_always_calls (oracle : Oracle) (execTool : ToolExec)
    (halways : ∀ msgs, ∃ c tc tcs, oracle msgs true = .ok (.obj c (tc :: tcs)))
    (hfinal : ∀ msgs, ∃ r, oracle msgs false = .ok r) :
    ∀ (n : Nat) (msgs : List ChatMsg), ∃ answer,
      toolLoop oracle execTool msgs true n
        = .ok (answer, true, List.replicate n true ++ [false]) := by
  intro n
  induction n with
  | zero =>
    intro msgs
    obtain ⟨r, hr⟩ := hfinal msgs
    exact ⟨r.asText, by simp [toolLoop, hr]⟩
  | succ n ih =>
    intro msgs
    obtain ⟨c, tc, tcs, hc⟩ := halways msgs
    obtain ⟨a, ha⟩ := ih (msgs ++ [ChatMsg.assistantCalls (c.getD "") (tc :: tcs)]
      ++ ((tc :: tcs).map (fun cc => (cc.id, execTool cc.name cc.arguments))).map
           (fun r => ChatMsg.tool r.1 r.2))
    refine ⟨a, ?_⟩
    simp only [toolLoop, hc, ha, List.replicate_succ, List.cons_append]

/-- C3: for every oracle that requests at least one further capability
invocation on every tools-enabled consultation (and answers the tools-disabled
one), one dispatch call terminates after exactly `max_rounds + 1 = 6` oracle
calls — the flag log has one `true` per tools-enabled round and ends with the
single `false` of the final, invocation-disabled call — and returns an answer
string. -/
theorem dispatch_loop_terminates (oracle : Oracle) (execTool : ToolExec)
    (messages : List ChatMsg)
    (halways : ∀ msgs, ∃ c tc tcs, oracle msgs true = .ok (.obj c (tc :: tcs)))
    (hfinal : ∀ msgs, ∃ r, oracle msgs false = .ok r) :
    ∃ answer, getLlmResponseWithTools oracle execTool messages
      = .ok (answer, true, [true, true, true, true, true, false]) := by
  obtain ⟨c, tc, tcs, hc⟩ := halways messages
  obtain ⟨a, ha⟩ := toolLoop_always_calls oracle execTool halways hfinal 4
    (messages ++ [ChatMsg.assistantCalls (c.getD "") (tc :: tcs)]
      ++ ((tc :: tcs).map (fun cc => (cc.id, execTool cc.name cc.arguments))).map
           (fun r => ChatMsg.tool r.1 r.2))
  refine ⟨a, ?_⟩
  have key : toolLoop oracle execTool messages false (4 + 1)
      = (match toolLoop oracle execTool
            (messages ++ [ChatMsg.assistantCalls (c.getD "") (tc :: tcs)]
              ++ ((tc :: tcs).map (fun cc => (cc.id, execTool cc.name cc.arguments))).map
                   (fun r => ChatMsg.tool r.1 r.2)) true 4 with
         | Except.error e => Except.error e
         | Except.ok (a2, m, log) => Except.ok (a2, m, true :: log)) := by
    show (match oracle messages true with
      | Except.error e => Except.error e
      | Except.ok response =>
        match response with
        | LLMResponse.obj content (tc2 :: tcs2) =>
          (match toolLoop oracle execTool
              (messages ++ [ChatMsg.assistantCalls (content.getD "") (tc2 :: tcs2)]
                ++ ((tc2 :: tcs2).map (fun cc : ToolCall =>
                      (cc.id, execTool cc.name cc.arguments))).map
                     (fun r : String × Payload => ChatMsg.tool r.1 r.2)) true 4 with
           | Except.error e => Except.error e
           | Except.ok (a2, m, log) => Except.ok (a2, m, true :: log))
        | other => Except.ok (other.asText, false, [true])) = _
    rw [hc]
  show toolLoop oracle execTool messages false max_rounds = _
  rw [show max_rounds = 4 + 1 from rfl, key, ha]
  rfl

/-- C3 witness: with the concrete always-invoking oracle, the dispatch call
makes five tools-enabled calls, one final tools-disabled call, and answers. -/
theorem dispatch_loop_terminates_witness :
    ∃ answer, getLlmResponseWithTools alwaysCallOracle nullExec [ChatMsg.user "hi"]
      = .ok (answer, true, [true, true, true, true, true, false]) :=
  dispatch_loop_terminates alwaysCallOracle nullExec [ChatMsg.user "hi"]
    (fun _ => ⟨none, ToolCall.mk "c1" "message_planner" [], [], rfl⟩)
    (fun _ => ⟨.str "done", rfl⟩)

/-- C5 (amended): when the broker yields no response within the timeout, the
planner and RAG tool methods return the synthesized error payloads the code
actually builds — `"No response from Planner"` / `"No response from RAG"` —
instead of raising; and the dispatch loop folds each round's tool results
(whatever payloads the executor produced, error or not) into the transcript as
tool turns and keeps looping toward an answer, so no exception escapes. -/
theorem tool_timeout_folded :
    (∀ (send : BrokerSend) ap mid now args a o,
      (∀ m t, send m t = none) → pget args "action" = some a →
      pget args "objective" = some o →
      (messagePlanner send ap mid now args).1
        = [("status", .str "error"), ("message", .str "No response from Planner")])
    ∧ (∀ (send : BrokerSend) cc mid now args q,
      (∀ m t, send m t = none) → pget args "action" = some (.str "search") →
      pget args "query" = some q →
      (messageRag send cc mid now args).1
        = [("status", .str "error"), ("message", .str "No response from RAG")])
    ∧ (∀ (oracle : Oracle) (execTool : ToolExec) msgs made n c tc tcs,
      oracle msgs true = .ok (.obj c (tc :: tcs)) →
      toolLoop oracle execTool msgs made (n + 1)
        = (toolLoop oracle execTool
            (msgs ++ [ChatMsg.assistantCalls (c.getD "") (tc :: tcs)]
              ++ ((tc :: tcs).map (fun cc2 => (cc2.id, execTool cc2.name cc2.arguments))).map
                   (fun r => ChatMsg.tool r.1 r.2))
            true n).map (fun r => (r.1, r.2.1, true :: r.2.2))) := by
  refine ⟨?_, ?_, ?_⟩
  · intro send ap mid now args a o hsend ha ho
    simp [messagePlanner, ha, ho, hsend]
  · intro send cc mid now args q hsend ha hq
    simp [messageRag, ha, hq, hsend, PyVal.isStr]
  · intro oracle execTool msgs made n c tc tcs hc
    have key : toolLoop oracle execTool msgs made (n + 1)
        = (match toolLoop oracle execTool
              (msgs ++ [ChatMsg.assistantCalls (c.getD "") (tc :: tcs)]
                ++ ((tc :: tcs).map (fun cc2 => (cc2.id, execTool cc2.name cc2.arguments))).map
                     (fun r => ChatMsg.tool r.1 r.2)) true n with
           | Except.error e => Except.error e
           | Except.ok (a2, m, log) => Except.ok (a2, m, true :: log)) := by
      show (match oracle msgs true with
        | Except.error e => Except.error e
        | Except.ok response =>
          match response with
          | LLMResponse.obj content (tc2 :: tcs2) =>
            (match toolLoop oracle execTool
                (msgs ++ [ChatMsg.assistantCalls (content.getD "") (tc2 :: tcs2)]
                  ++ ((tc2 :: tcs2).map (fun cc2 : ToolCall =>
                        (cc2.id, execTool cc2.name cc2.arguments))).map
                       (fun r : String × Payload => ChatMsg.tool r.1 r.2)) true n with
             | Except.error e => Except.error e
             | Except.ok (a2, m, log) => Except.ok (a2, m, true :: log))
          | other => Except.ok (other.asText, made, [true])) = _
      rw [hc]
    rw [key]
    cases toolLoop oracle execTool
        (msgs ++ [ChatMsg.assistantCalls (c.getD "") (tc :: tcs)]
          ++ ((tc :: tcs).map (fun cc2 => (cc2.id, execTool cc2.name cc2.arguments))).map
               (fun r => ChatMsg.tool r.1 r.2)) true n with
    | error e => rfl
    | ok v => obtain ⟨a2, m, log⟩ := v; rfl

/-- C5 witness: with a broker stub that always times out, the planner tool
method returns the `"No response from Planner"` payload and the RAG tool
method returns the `"No response from RAG"` payload. -/
theorem tool_timeout_folded_witness :
    (messagePlanner noneSend none "m5" 0
       [("action", .str "create_plan"), ("objective", .str "demo")]).1
      = [("status", .str "error"), ("message", .str "No response from Planner")]
    ∧ (messageRag noneSend none "m5" 0
       [("action", .str "search"), ("query", .str "demo")]).1
      = [("status", .str "error"), ("message", .str "No response from RAG")] :=
  ⟨tool_timeout_folded.1 noneSend none "m5" 0
     [("action", .str "create_plan"), ("objective", .str "demo")]
     (.str "create_plan") (.str "demo") (fun _ _ => rfl) rfl rfl,
   tool_timeout_folded.2.1 noneSend none "m5" 0
     [("action", .str "search"), ("query", .str "demo")]
     (.str "demo") (fun _ _ => rfl) rfl rfl⟩

/-- C5 counterexample: on a planner timeout the code synthesizes the payload
with message `"No response from Planner"`, which is not the literal
`no response from planner` payload stated in the claim (the capability name is
`"planner"`). -/
theorem tool_timeout_payload_counterexample :
    (messagePlanner noneSend none "m1" 0
       [("action", .str "create_plan"), ("objective", .str "x")]).1
      = [("status", .str "error"), ("message", .str "No response from Planner")]
    ∧ (messagePlanner noneSend none "m1" 0
       [("action", .str "create_plan"), ("objective", .str "x")]).1
      ≠ [("status", .str "error"), ("message", .str "no response from planner")] := by
  constructor
  · rfl
  · intro h
    have h2 : ([("status", PyVal.str "error"),
                ("message", PyVal.str "No response from Planner")] : Payload)
        = [("status", .str "error"), ("message", .str "no response from planner")] := by
      rw [← h]; rfl
    simp [List.cons_eq_cons] at h2

theorem record_event_get_other (mon : MessageMonitor) (now : Int) (mid2 mid : String)
    (h : mid2 ≠ mid) (status : MessageStatus) (details : String) (error : Option String)
    (md : Payload) :
    (mon.record_event now mid2 status details error md).get_trace mid
      = mon.get_trace mid := by
  simp [MessageMonitor.record_event, MessageMonitor.get_trace, StrMap.insert, Ne.symm h]

theorem workerStep_no_signal (st : BrokerState) (mid agent : String) (tnow : Int)
    (fid : String)
    (h1 : st.response_events mid = some false)
    (h2 : ∀ b m, m ∈ ((st.message_queues b).getD []) → m.message_id ≠ mid) :
    (st.workerStep agent tnow fid).response_events mid = some false
    ∧ (∀ b m, m ∈ (((st.workerStep agent tnow fid).message_queues b).getD [])
        → m.message_id ≠ mid)
    ∧ (st.workerStep agent tnow fid).monitor.get_trace mid = st.monitor.get_trace mid := by
  unfold BrokerState.workerStep
  by_cases hsd : st.shutdown_event
  · rw [if_pos hsd]
    exact ⟨h1, h2, rfl⟩
  · rw [if_neg hsd]
    cases hq : (st.message_queues agent).getD [] with
    | nil => exact ⟨h1, h2, rfl⟩
    | cons message rest =>
      have hne : message.message_id ≠ mid := by
        refine h2 agent message ?_
        rw [hq]; exact List.mem_cons_self _ _
      have hq2 : ∀ b m, m ∈ (((st.message_queues.insert agent rest) b).getD [])
          → m.message_id ≠ mid := by
        intro b m hm
        by_cases hb : b = agent
        · subst hb
          rw [StrMap.get_insert_self] at hm
          exact h2 b m (by rw [hq]; exact List.mem_cons_of_mem _ hm)
        · rw [StrMap.get_insert_ne _ _ _ _ hb] at hm
          exact h2 b m hm
      dsimp only
      cases hh : st.agent_handlers agent with
      | none =>
        dsimp only
        refine ⟨h1, hq2, ?_⟩
        exact record_event_get_other _ _ _ _ hne _ _ _ _
      | some handler =>
        dsimp only
        cases hr : handler message with
        | error e =>
          dsimp only
          refine ⟨h1, hq2, ?_⟩
          rw [record_event_get_other _ _ _ _ hne, record_event_get_other _ _ _ _ hne,
            record_event_get_other _ _ _ _ hne]
        | ok rp =>
          dsimp only
          cases hmt : message.message_type with
          | request =>
            dsimp only
            cases hev : st.response_events message.message_id with
            | none =>
              dsimp only
              refine ⟨h1, hq2, ?_⟩
              rw [record_event_get_other _ _ _ _ hne, record_event_get_other _ _ _ _ hne,
                record_event_get_other _ _ _ _ hne]
            | some b0 =>
              dsimp only
              refine ⟨?_, hq2, ?_⟩
              · rw [StrMap.get_insert_ne _ _ _ _ (Ne.symm hne)]
                exact h1
              · rw [record_event_get_other _ _ _ _ hne, record_event_get_other _ _ _ _ hne,
                  record_event_get_other _ _ _ _ hne]
          | response =>
            dsimp only
            refine ⟨h1, hq2, ?_⟩
            rw [record_event_get_other _ _ _ _ hne, record_event_get_other _ _ _ _ hne]
          | notif =>
            dsimp only
            refine ⟨h1, hq2, ?_⟩
            rw [record_event_get_other _ _ _ _ hne, record_event_get_other _ _ _ _ hne]
          | status_update =>
            dsimp only
            refine ⟨h1, hq2, ?_⟩
            rw [record_event_get_other _ _ _ _ hne, record_event_get_other _ _ _ _ hne]
          | error =>
            dsimp only
            refine ⟨h1, hq2, ?_⟩
            rw [record_event_get_other _ _ _ _ hne, record_event_get_other _ _ _ _ hne]
          | broadcast =>
            dsimp only
            refine ⟨h1, hq2, ?_⟩
            rw [record_event_get_other _ _ _ _ hne, record_event_get_other _ _ _ _ hne]

theorem runWorkers_no_signal (mid : String) :
    ∀ (steps : List WorkerAct) (st : BrokerState),
      st.response_events mid = some false →
      (∀ b m, m ∈ ((st.message_queues b).getD []) → m.message_id ≠ mid) →
      ((st.runWorkers steps).response_events mid = some false
       ∧ (∀ b m, m ∈ (((st.runWorkers steps).message_queues b).getD [])
           → m.message_id ≠ mid)
       ∧ (st.runWorkers steps).monitor.get_trace mid = st.monitor.get_trace mid
       ∧ firstSignalTime st mid steps = none) := by
  intro steps
  induction steps with
  | nil => intro st h1 h2; exact ⟨h1, h2, rfl, rfl⟩
  | cons a rest ih =>
    intro st h1 h2
    obtain ⟨g1, g2, g3⟩ := workerStep_no_signal st mid a.agent a.time a.fresh_id h1 h2
    obtain ⟨r1, r2, r3, r4⟩ := ih (st.workerStep a.agent a.time a.fresh_id) g1 g2
    refine ⟨r1, r2, ?_, ?_⟩
    · rw [show st.runWorkers (a :: rest)
          = (st.workerStep a.agent a.time a.fresh_id).runWorkers rest from rfl, r3, g3]
    · show firstSignalTime st mid (a :: rest) = none
      unfold firstSignalTime
      dsimp only
      rw [g1]
      exact r4

theorem route_message_nohandler (st : BrokerState) (now : Int) (msg : AgentMessage)
    (hreg : st.agent_handlers msg.recipient = none) :
    (st.route_message now msg).message_queues = st.message_queues
    ∧ (st.route_message now msg).response_events = st.response_events
    ∧ (st.route_message now msg).agent_handlers = st.agent_handlers
    ∧ (st.route_message now msg).shutdown_event = st.shutdown_event
    ∧ (st.route_message now msg).monitor.get_trace msg.message_id
        = some ⟨msg.message_id, msg.sender, msg.recipient, msg.message_type.value, now,
                [⟨now, .no_handler, "No handler registered for " ++ msg.recipient,
                  some "Agent not registered", []⟩]⟩ := by
  unfold BrokerState.route_message
  dsimp only
  rw [hreg]
  dsimp only
  refine ⟨rfl, rfl, rfl, rfl, ?_⟩
  simp [MessageMonitor.start_trace, MessageMonitor.record_event, MessageMonitor.get_trace,
    MessageTrace.add_event, StrMap.get_insert_self]

/-- C1 (amended): for a request whose recipient has no registered handler,
routing records a `NoHandler` event and never enqueues the message — but
`send_request` still blocks on the completion signal, which no worker iteration
can ever set, so it returns the no-response outcome only after waiting the
full caller-supplied timeout (the elapsed wait equals `timeout`), not in O(1). -/
theorem nohandler_fail_fast (st : BrokerState) (now : Int) (msg : AgentMessage)
    (timeout : Int) (steps : List WorkerAct)
    (hreg : st.agent_handlers msg.recipient = none)
    (hq : ∀ b m, m ∈ ((st.message_queues b).getD []) → m.message_id ≠ msg.message_id) :
    (st.send_request now msg timeout steps).2.1 = none
    ∧ (st.send_request now msg timeout steps).2.2 = timeout
    ∧ (∃ tr, (st.send_request now msg timeout steps).1.monitor.get_trace msg.message_id
         = some tr ∧ ∃ e ∈ tr.events, e.status = MessageStatus.no_handler)
    ∧ (∀ b m, m ∈ (((st.send_request now msg timeout steps).1.message_queues b).getD [])
        → m.message_id ≠ msg.message_id) := by
  obtain ⟨q2, e2, a2, s2, t2⟩ := route_message_nohandler
    { st with response_events := st.response_events.insert msg.message_id false } now msg hreg
  have h1 : (({ st with response_events := st.response_events.insert msg.message_id false }
      : BrokerState).route_message now msg).response_events msg.message_id = some false := by
    rw [e2]; exact StrMap.get_insert_self _ _ _
  have h2 : ∀ b m, m ∈ (((({ st with
        response_events := st.response_events.insert msg.message_id false }
      : BrokerState).route_message now msg).message_queues b).getD [])
      → m.message_id ≠ msg.message_id := by
    rw [q2]; exact hq
  obtain ⟨r1, r2, r3, r4⟩ := runWorkers_no_signal msg.message_id steps _ h1 h2
  have hsr : st.send_request now msg timeout steps
      = ((({ st with response_events := st.response_events.insert msg.message_id false }
          : BrokerState).route_message now msg).runWorkers steps).sendTimeout
          now msg timeout := by
    unfold BrokerState.send_request
    dsimp only
    rw [r4]
  have hstW : ((({ st with response_events := st.response_events.insert msg.message_id false }
      : BrokerState).route_message now msg).runWorkers steps).monitor.traces msg.message_id
      = some ⟨msg.message_id, msg.sender, msg.recipient, msg.message_type.value, now,
              [⟨now, .no_handler, "No handler registered for " ++ msg.recipient,
                some "Agent not registered", []⟩]⟩ := r3.trans t2
  rw [hsr]
  unfold BrokerState.sendTimeout
  dsimp only
  refine ⟨rfl, rfl, ?_, r2⟩
  refine ⟨(⟨msg.message_id, msg.sender, msg.recipient, msg.message_type.value, now,
          [⟨now, .no_handler, "No handler registered for " ++ msg.recipient,
            some "Agent not registered", []⟩]⟩ : MessageTrace).add_event now .timeout
            ("Request timed out after " ++ toString timeout ++ "s")
            (some "No response received") [], ?_, ?_⟩
  · simp [MessageMonitor.record_event, MessageMonitor.get_trace, hstW,
      StrMap.get_insert_self]
  · refine ⟨⟨now, .no_handler, "No handler registered for " ++ msg.recipient,
      some "Agent not registered", []⟩, ?_, rfl⟩
    simp [MessageTrace.add_event]

/-- C1 witness: sending to the unregistered `"ghost"` with timeout 5 on a
fresh broker returns no response after the full 5-unit wait, with a
`NoHandler` event in the trace. -/
theorem nohandler_fail_fast_witness :
    (BrokerState.init.send_request 0 ghostMsg 5 []).2.1 = none
    ∧ (BrokerState.init.send_request 0 ghostMsg 5 []).2.2 = 5
    ∧ (∃ tr, (BrokerState.init.send_request 0 ghostMsg 5 []).1.monitor.get_trace
         ghostMsg.message_id = some tr
        ∧ ∃ e ∈ tr.events, e.status = MessageStatus.no_handler) := by
  obtain ⟨w1, w2, w3, _⟩ := nohandler_fail_fast BrokerState.init 0 ghostMsg 5 [] rfl
    (by intro b m hm; simp [BrokerState.init, StrMap.empty] at hm)
  exact ⟨w1, w2, w3⟩

/-- C1 counterexample: the claim says `send_request` to unregistered `"ghost"`
with timeout 5 completes well under the timeout; in the code the completion
event is never set, so the call returns `None` only after the full 5-unit
wait — the elapsed time equals the timeout and is not less than it. -/
theorem nohandler_counterexample :
    (BrokerState.init.send_request 0 ghostMsg 5 []).2.2 = 5
    ∧ ¬ ((BrokerState.init.send_request 0 ghostMsg 5 []).2.2 < 5)
    ∧ (BrokerState.init.send_request 0 ghostMsg 5 []).2.1 = none := by
  have h : (BrokerState.init.send_request 0 ghostMsg 5 []).2.2 = 5 := rfl
  refine ⟨h, ?_, rfl⟩
  rw [h]
  decide

theorem workerStep_pending_persists (st : BrokerState) (agent : String) (tnow : Int)
    (fid : String) (mid : String)
    (h : (st.pending_responses mid).isSome = true) :
    ((st.workerStep agent tnow fid).pending_responses mid).isSome = true := by
  unfold BrokerState.workerStep
  by_cases hsd : st.shutdown_event
  · rw [if_pos hsd]; exact h
  · rw [if_neg hsd]
    cases hq : (st.message_queues agent).getD [] with
    | nil => exact h
    | cons message rest =>
      dsimp only
      cases hh : st.agent_handlers agent with
      | none => exact h
      | some handler =>
        dsimp only
        cases hr : handler message with
        | error e => exact h
        | ok rp =>
          dsimp only
          cases hmt : message.message_type with
          | request =>
            dsimp only
            cases hev : st.response_events message.message_id with
            | none =>
              dsimp only
              by_cases hm : mid = message.message_id
              · subst hm
                rw [StrMap.get_insert_self]
                rfl
              · rw [StrMap.get_insert_ne _ _ _ _ hm]
                exact h
            | some b0 =>
              dsimp only
              by_cases hm : mid = message.message_id
              · subst hm
                rw [StrMap.get_insert_self]
                rfl
              · rw [StrMap.get_insert_ne _ _ _ _ hm]
                exact h
          | response => exact h
          | notif => exact h
          | status_update => exact h
          | error => exact h
          | broadcast => exact h

theorem runWorkers_pending_persists (mid : String) :
    ∀ (steps : List WorkerAct) (st : BrokerState),
      (st.pending_responses mid).isSome = true →
      ((st.runWorkers steps).pending_responses mid).isSome = true := by
  intro steps
  induction steps with
  | nil => intro st h; exact h
  | cons a rest ih =>
    intro st h
    exact ih _ (workerStep_pending_persists st a.agent a.time a.fresh_id mid h)

/-- C2 (amended): the completion-signal (response-event) entry for a request id
is always removed by `send_request`, on the success path and on the timeout
path alike; when the wait is signalled within the timeout, the pending-response
slot for the id is removed as well; but when the handler finishes servicing the
request only after the caller timed out, the worker stores the response under
the request id after `send_request` has already returned `None`, and the entry
persists — no sequence of worker iterations removes a pending-response entry
(the slot is reclaimed only when `shutdown` clears the whole table). -/
theorem pending_correlation_cleanup :
    (∀ (st : BrokerState) (now : Int) (msg : AgentMessage) (timeout : Int)
       (steps : List WorkerAct),
      (st.send_request now msg timeout steps).1.response_events msg.message_id = none)
    ∧ (∀ (st : BrokerState) (now : Int) (msg : AgentMessage) (timeout : Int)
       (steps : List WorkerAct) (t : Int),
      firstSignalTime
          (({ st with response_events := st.response_events.insert msg.message_id false }
            : BrokerState).route_message now msg) msg.message_id steps = some t →
      t ≤ timeout →
      (st.send_request now msg timeout steps).1.pending_responses msg.message_id = none)
    ∧ (∀ (st : BrokerState) (mid : String) (steps : List WorkerAct),
      (st.pending_responses mid).isSome = true →
      ((st.runWorkers steps).pending_responses mid).isSome = true)
    ∧ (demoBroker.send_request 0 demoMsg 1 []).2.1 = none
    ∧ demoLate.pending_responses "m1"
        = some (demoMsg.create_response "r1" 2 [("status", .str "success")] .response) := by
  refine ⟨?_, ?_, ?_, rfl, rfl⟩
  · intro st now msg timeout steps
    unfold BrokerState.send_request
    dsimp only
    split
    · split
      · exact StrMap.get_erase_self _ _
      · exact StrMap.get_erase_self _ _
    · exact StrMap.get_erase_self _ _
  · intro st now msg timeout steps t hsig ht
    unfold BrokerState.send_request
    dsimp only
    rw [hsig]
    dsimp only
    rw [if_pos ht]
    exact StrMap.get_erase_self _ _
  · intro st mid steps h
    exact runWorkers_pending_persists mid steps st h

/-- C2 witness: a matched-in-time request (the worker runs during the wait)
leaves no pending-response entry; and the leaked entry of the late-completion
run survives a further worker iteration. -/
theorem pending_correlation_cleanup_witness :
    (demoBroker.send_request 0 demoMsg 1 [WorkerAct.mk "echo" 0 "r1"]).1.pending_responses
        "m1" = none
    ∧ ((demoLate.runWorkers [WorkerAct.mk "echo" 3 "r2"]).pending_responses "m1").isSome
        = true := by
  constructor
  · exact pending_correlation_cleanup.2.1 demoBroker 0 demoMsg 1
      [WorkerAct.mk "echo" 0 "r1"] 0 rfl (by decide)
  · exact pending_correlation_cleanup.2.2.1 demoLate "m1" [WorkerAct.mk "echo" 3 "r2"] rfl

/-- C2 counterexample: after `send_request` for `demoMsg` timed out and
returned `None`, a single worker iteration services the stale request and a
pending-response entry for its id remains in the table (and persists), contrary
to the claim that no entry remains for the id once `send_request` returns. -/
theorem pending_leak_counterexample :
    (demoBroker.send_request 0 demoMsg 1 []).2.1 = none
    ∧ (demoLate.pending_responses "m1").isSome = true
    ∧ ((demoLate.workerStep "echo" 3 "r2").pending_responses "m1").isSome = true := by
  exact ⟨rfl, rfl, rfl⟩
